import Mathlib

/-!
Verification of the connection state reconciliation engine of a VPN
connection manager, directly embedded from its C sources:

* the per-session status classifier in session_get_info
  (src/dbus/session_client.c),
* the per-connection finite state machine (src/utils/connection_fsm.c),
* the config/session reconciler merge_connections_data (src/tray.c),
* the fetch retry policies of config_list and session_list,
* the bandwidth rolling-buffer sampler (src/monitoring/bandwidth_monitor.c),
* the authentication probe session_get_auth_url and the session start
  sequence (src/dbus/session_client.c).

Machine integers are modelled as Nat with explicit wrap-around where the C
performs unsigned arithmetic; C int error codes are modelled as Int
(negative errno values); NULL-able C strings are Option String.
-/

/-! ## Status classifier (session_get_info, src/dbus/session_client.c) -/

/-- SessionState enum from session_client.h (values 0..6). -/
inductive SessionState where
  | SESSION_STATE_DISCONNECTED
  | SESSION_STATE_CONNECTING
  | SESSION_STATE_CONNECTED
  | SESSION_STATE_RECONNECTING
  | SESSION_STATE_PAUSED
  | SESSION_STATE_ERROR
  | SESSION_STATE_AUTH_REQUIRED
deriving DecidableEq, Repr, Inhabited, Fintype

/-- Boolean substring test: models C strstr(hay, needle) != NULL for a
non-empty needle. -/
def strstrB (hay needle : String) : Bool :=
  needle.length ≤ hay.length && ((hay.splitOn needle).length != 1)

/-- Models is_session_connected (session_client.c): reading the
connected_to property yields (protocol, host, port); the session counts
as connected when the read succeeded (the tuple is present, so the two
string pointers are non-NULL) and port > 0. -/
def is_session_connected (connected_to : Option (String × String × Nat)) : Bool :=
  match connected_to with
  | some (_, _, port) => port > 0
  | none => false

/-- The state classification chain of session_get_info
(session_client.c lines 293-384), as a pure function of its inputs:
whether the auth probe succeeded (auth_check == 0), the raw status codes,
the connected flag from connected_to, and the status message (None models
a NULL char pointer). -/
def session_get_info_classify (needs_auth : Bool) (major minor : Nat)
    (connected : Bool) (status_message : Option String) : SessionState :=
  let is_paused := major == 4 || (major == 2 && (minor == 13 || minor == 14))
  if needs_auth then
    .SESSION_STATE_AUTH_REQUIRED
  else if is_paused then
    .SESSION_STATE_PAUSED
  else if connected then
    .SESSION_STATE_CONNECTED
  else if (match status_message with
           | some m => strstrB m "failed" || strstrB m "Failed" || strstrB m "Error"
           | none => false) then
    .SESSION_STATE_ERROR
  else if major == 2 then
    .SESSION_STATE_CONNECTING
  else
    match status_message with
    | some m =>
      if strstrB m "authentication required" || strstrB m "Web authentication" ||
         strstrB m "https://" then
        .SESSION_STATE_AUTH_REQUIRED
      else if strstrB m "Connecting" then
        .SESSION_STATE_CONNECTING
      else if strstrB m "Reconnecting" then
        .SESSION_STATE_RECONNECTING
      else if strstrB m "Paused" then
        .SESSION_STATE_PAUSED
      else
        .SESSION_STATE_DISCONNECTED
    | none => .SESSION_STATE_DISCONNECTED

/-! ## Connection FSM (src/utils/connection_fsm.c) -/

/-- ConnectionState enum from connection_fsm.h. -/
inductive ConnectionState where
  | CONN_STATE_DISCONNECTED
  | CONN_STATE_CONNECTING
  | CONN_STATE_CONNECTED
  | CONN_STATE_PAUSED
  | CONN_STATE_AUTH_REQUIRED
  | CONN_STATE_ERROR
  | CONN_STATE_RECONNECTING
deriving DecidableEq, Repr, Inhabited, Fintype

/-- ConnectionFsmEvent enum from connection_fsm.h. -/
inductive ConnectionFsmEvent where
  | FSM_EVENT_CONNECT_REQUESTED
  | FSM_EVENT_SESSION_CONNECTING
  | FSM_EVENT_SESSION_CONNECTED
  | FSM_EVENT_SESSION_PAUSED
  | FSM_EVENT_SESSION_RESUMED
  | FSM_EVENT_SESSION_AUTH_REQUIRED
  | FSM_EVENT_SESSION_ERROR
  | FSM_EVENT_SESSION_DISCONNECTED
  | FSM_EVENT_DISCONNECT_REQUESTED
  | FSM_EVENT_SESSION_RECONNECTING
deriving DecidableEq, Repr, Inhabited, Fintype

open ConnectionState ConnectionFsmEvent

/-- The observed_* events: every event reporting a state seen on the bus,
as opposed to the two user-request events. -/
def is_observed_event : ConnectionFsmEvent → Bool
  | FSM_EVENT_CONNECT_REQUESTED => false
  | FSM_EVENT_DISCONNECT_REQUESTED => false
  | _ => true

/-- The transition table of connection_fsm.c (lines 26-83), entry for
entry in source order: (from_state, event, to_state). -/
def transition_table : List (ConnectionState × ConnectionFsmEvent × ConnectionState) :=
  [ (CONN_STATE_DISCONNECTED, FSM_EVENT_CONNECT_REQUESTED,     CONN_STATE_CONNECTING),
    (CONN_STATE_DISCONNECTED, FSM_EVENT_SESSION_CONNECTING,    CONN_STATE_CONNECTING),
    (CONN_STATE_DISCONNECTED, FSM_EVENT_SESSION_DISCONNECTED,  CONN_STATE_DISCONNECTED),
    (CONN_STATE_DISCONNECTED, FSM_EVENT_SESSION_CONNECTED,     CONN_STATE_CONNECTED),
    (CONN_STATE_DISCONNECTED, FSM_EVENT_SESSION_AUTH_REQUIRED, CONN_STATE_AUTH_REQUIRED),
    (CONN_STATE_DISCONNECTED, FSM_EVENT_SESSION_PAUSED,        CONN_STATE_PAUSED),
    (CONN_STATE_DISCONNECTED, FSM_EVENT_SESSION_ERROR,         CONN_STATE_ERROR),

    (CONN_STATE_CONNECTING, FSM_EVENT_SESSION_CONNECTED,       CONN_STATE_CONNECTED),
    (CONN_STATE_CONNECTING, FSM_EVENT_SESSION_AUTH_REQUIRED,   CONN_STATE_AUTH_REQUIRED),
    (CONN_STATE_CONNECTING, FSM_EVENT_SESSION_ERROR,           CONN_STATE_ERROR),
    (CONN_STATE_CONNECTING, FSM_EVENT_SESSION_DISCONNECTED,    CONN_STATE_DISCONNECTED),
    (CONN_STATE_CONNECTING, FSM_EVENT_DISCONNECT_REQUESTED,    CONN_STATE_DISCONNECTED),
    (CONN_STATE_CONNECTING, FSM_EVENT_SESSION_CONNECTING,      CONN_STATE_CONNECTING),

    (CONN_STATE_CONNECTED, FSM_EVENT_SESSION_PAUSED,           CONN_STATE_PAUSED),
    (CONN_STATE_CONNECTED, FSM_EVENT_SESSION_RECONNECTING,     CONN_STATE_RECONNECTING),
    (CONN_STATE_CONNECTED, FSM_EVENT_SESSION_DISCONNECTED,     CONN_STATE_DISCONNECTED),
    (CONN_STATE_CONNECTED, FSM_EVENT_DISCONNECT_REQUESTED,     CONN_STATE_DISCONNECTED),
    (CONN_STATE_CONNECTED, FSM_EVENT_SESSION_ERROR,            CONN_STATE_ERROR),
    (CONN_STATE_CONNECTED, FSM_EVENT_SESSION_CONNECTED,        CONN_STATE_CONNECTED),

    (CONN_STATE_PAUSED, FSM_EVENT_SESSION_RESUMED,             CONN_STATE_CONNECTED),
    (CONN_STATE_PAUSED, FSM_EVENT_SESSION_CONNECTED,           CONN_STATE_CONNECTED),
    (CONN_STATE_PAUSED, FSM_EVENT_SESSION_DISCONNECTED,        CONN_STATE_DISCONNECTED),
    (CONN_STATE_PAUSED, FSM_EVENT_DISCONNECT_REQUESTED,        CONN_STATE_DISCONNECTED),
    (CONN_STATE_PAUSED, FSM_EVENT_SESSION_ERROR,               CONN_STATE_ERROR),
    (CONN_STATE_PAUSED, FSM_EVENT_SESSION_PAUSED,              CONN_STATE_PAUSED),

    (CONN_STATE_AUTH_REQUIRED, FSM_EVENT_SESSION_CONNECTED,    CONN_STATE_CONNECTED),
    (CONN_STATE_AUTH_REQUIRED, FSM_EVENT_SESSION_CONNECTING,   CONN_STATE_CONNECTING),
    (CONN_STATE_AUTH_REQUIRED, FSM_EVENT_SESSION_DISCONNECTED, CONN_STATE_DISCONNECTED),
    (CONN_STATE_AUTH_REQUIRED, FSM_EVENT_DISCONNECT_REQUESTED, CONN_STATE_DISCONNECTED),
    (CONN_STATE_AUTH_REQUIRED, FSM_EVENT_SESSION_ERROR,        CONN_STATE_ERROR),
    (CONN_STATE_AUTH_REQUIRED, FSM_EVENT_SESSION_AUTH_REQUIRED, CONN_STATE_AUTH_REQUIRED),

    (CONN_STATE_ERROR, FSM_EVENT_SESSION_DISCONNECTED,         CONN_STATE_DISCONNECTED),
    (CONN_STATE_ERROR, FSM_EVENT_DISCONNECT_REQUESTED,         CONN_STATE_DISCONNECTED),
    (CONN_STATE_ERROR, FSM_EVENT_CONNECT_REQUESTED,            CONN_STATE_CONNECTING),
    (CONN_STATE_ERROR, FSM_EVENT_SESSION_CONNECTING,           CONN_STATE_CONNECTING),
    (CONN_STATE_ERROR, FSM_EVENT_SESSION_CONNECTED,            CONN_STATE_CONNECTED),
    (CONN_STATE_ERROR, FSM_EVENT_SESSION_ERROR,                CONN_STATE_ERROR),

    (CONN_STATE_RECONNECTING, FSM_EVENT_SESSION_CONNECTED,     CONN_STATE_CONNECTED),
    (CONN_STATE_RECONNECTING, FSM_EVENT_SESSION_AUTH_REQUIRED, CONN_STATE_AUTH_REQUIRED),
    (CONN_STATE_RECONNECTING, FSM_EVENT_SESSION_DISCONNECTED,  CONN_STATE_DISCONNECTED),
    (CONN_STATE_RECONNECTING, FSM_EVENT_DISCONNECT_REQUESTED,  CONN_STATE_DISCONNECTED),
    (CONN_STATE_RECONNECTING, FSM_EVENT_SESSION_ERROR,         CONN_STATE_ERROR),
    (CONN_STATE_RECONNECTING, FSM_EVENT_SESSION_RECONNECTING,  CONN_STATE_RECONNECTING) ]

/-- find_transition (connection_fsm.c): linear scan of the table for the
first entry matching (from_state, event). -/
def find_transition (from_state : ConnectionState) (event : ConnectionFsmEvent) :
    Option (ConnectionState × ConnectionFsmEvent × ConnectionState) :=
  transition_table.find? (fun t => t.1 == from_state && t.2.1 == event)

/-- connection_fsm_process_event (connection_fsm.c lines 236-271): take the
table transition when present, otherwise log and keep the current state. -/
def connection_fsm_process_event (current : ConnectionState)
    (event : ConnectionFsmEvent) : ConnectionState :=
  match find_transition current event with
  | some t => t.2.2
  | none => current

/-- C1: with raw status major=2 and minor 13 or 14, no successful auth
probe, and a populated connected_to tuple (whatever its contents, in
particular non-empty protocol/host with port > 0), session_get_info
classifies the session as PAUSED and never as CONNECTED: the paused check
precedes the connected-to check. -/
theorem classify_paused_beats_connected
    (minor : Nat) (connected_to : Option (String × String × Nat))
    (status_message : Option String) (h : minor = 13 ∨ minor = 14) :
    session_get_info_classify false 2 minor
        (is_session_connected connected_to) status_message
      = SessionState.SESSION_STATE_PAUSED ∧
    session_get_info_classify false 2 minor
        (is_session_connected connected_to) status_message
      ≠ SessionState.SESSION_STATE_CONNECTED := by
  rcases h with h | h <;> subst h <;>
    exact ⟨by simp [session_get_info_classify], by simp [session_get_info_classify]⟩

/-- Witness for classify_paused_beats_connected at minor=14 with a fully
populated connected_to tuple. -/
theorem classify_paused_beats_connected_witness :
    session_get_info_classify false 2 14
        (is_session_connected (some ("udp", "vpn.example.com", 1194))) (some "")
      = SessionState.SESSION_STATE_PAUSED :=
  (classify_paused_beats_connected 14 (some ("udp", "vpn.example.com", 1194))
      (some "") (Or.inr rfl)).1

/-- C2: the FSM is exactly the function defined by the transition table —
every listed (state, event) pair moves to the listed target, every
unlisted pair leaves the state unchanged — and processing the same
observed_* event twice lands in the same state as processing it once. -/
theorem connection_fsm_process_event_spec :
    (∀ s e t, (s, e, t) ∈ transition_table → connection_fsm_process_event s e = t) ∧
    (∀ s e, (∀ t, (s, e, t) ∉ transition_table) → connection_fsm_process_event s e = s) ∧
    (∀ s e, is_observed_event e = true →
      connection_fsm_process_event (connection_fsm_process_event s e) e
        = connection_fsm_process_event s e) := by
  refine ⟨?_, ?_, ?_⟩ <;> decide

/-- Witness for connection_fsm_process_event_spec: the first table entry
fires, an unlisted pair is absorbed, and a repeated observed event is
idempotent from CONNECTED. -/
theorem connection_fsm_process_event_spec_witness :
    connection_fsm_process_event CONN_STATE_DISCONNECTED FSM_EVENT_CONNECT_REQUESTED
      = CONN_STATE_CONNECTING ∧
    connection_fsm_process_event CONN_STATE_DISCONNECTED FSM_EVENT_SESSION_RESUMED
      = CONN_STATE_DISCONNECTED ∧
    connection_fsm_process_event
        (connection_fsm_process_event CONN_STATE_CONNECTED FSM_EVENT_SESSION_PAUSED)
        FSM_EVENT_SESSION_PAUSED
      = connection_fsm_process_event CONN_STATE_CONNECTED FSM_EVENT_SESSION_PAUSED :=
  ⟨connection_fsm_process_event_spec.1 _ _ _ (by decide),
   connection_fsm_process_event_spec.2.1 _ _ (by decide),
   connection_fsm_process_event_spec.2.2 _ _ (by decide)⟩

/-! ## Reconciler (merge_connections_data, src/tray.c) -/

/-- VpnConfig struct from config_client.h; NULL-able char pointers are
Option String. -/
structure VpnConfig where
  config_path : String
  config_name : Option String
  locked_down : Bool
  persistent : Bool
  server_address : Option String
  server_hostname : Option String
  server_port : Int
  protocol : Option String
deriving DecidableEq, Repr, Inhabited, BEq

/-- VpnSession struct from session_client.h. -/
structure VpnSession where
  session_path : String
  config_name : Option String
  device_name : Option String
  remote_host : Option String
  state : SessionState
  status_message : Option String
  backend_pid : Nat
  session_created : Nat
deriving DecidableEq, Repr, Inhabited, BEq

/-- ConnectionInfo struct from tray.c (the merged per-connection view).
connect_time is a time_t, modelled as Int. -/
structure ConnectionInfo where
  config_path : String
  config_name : String
  session_path : Option String
  state : ConnectionState
  connect_time : Int
deriving DecidableEq, Repr, Inhabited, BEq

/-- get_state_from_session (tray.c): map the session state enum onto the
connection state enum. -/
def get_state_from_session (session : VpnSession) : ConnectionState :=
  match session.state with
  | .SESSION_STATE_CONNECTING => CONN_STATE_CONNECTING
  | .SESSION_STATE_CONNECTED => CONN_STATE_CONNECTED
  | .SESSION_STATE_PAUSED => CONN_STATE_PAUSED
  | .SESSION_STATE_AUTH_REQUIRED => CONN_STATE_AUTH_REQUIRED
  | .SESSION_STATE_ERROR => CONN_STATE_ERROR
  | .SESSION_STATE_RECONNECTING => CONN_STATE_RECONNECTING
  | .SESSION_STATE_DISCONNECTED => CONN_STATE_DISCONNECTED

/-- get_session_start_time (tray.c): look the session path up in the
session_timings cache, falling back to (and caching) the session_created
timestamp from the bus. The cache is passed explicitly; insertion is
unobservable within one merge, so only the lookup is modelled. -/
def get_session_start_time (timings : String → Option Int)
    (session_path : String) (session_created : Nat) : Int :=
  (timings session_path).getD (Int.ofNat session_created)

/-- The match condition of the inner session scan in merge_connections_data:
session->config_name && config->config_name && strcmp(..) == 0. -/
def session_matches_config (session_name config_name : Option String) : Bool :=
  match session_name, config_name with
  | some sn, some cn => sn == cn
  | _, _ => false

/-- The inner for-loop of merge_connections_data (tray.c lines 634-656):
scan the session list in order and stop at the first session whose
config_name matches the config. -/
def match_session (config_name : Option String) : List VpnSession → Option VpnSession
  | [] => none
  | s :: rest =>
    if session_matches_config s.config_name config_name then some s
    else match_session config_name rest

/-- One iteration of the outer config loop of merge_connections_data:
build the record for one config, defaulting to DISCONNECTED with no
session and connect_time 0, and fill in session data on first match. -/
def merge_connection_record (timings : String → Option Int)
    (sessions : List VpnSession) (config : VpnConfig) : ConnectionInfo :=
  let base : ConnectionInfo :=
    { config_path := config.config_path,
      config_name := config.config_name.getD "Unknown",
      session_path := none,
      state := CONN_STATE_DISCONNECTED,
      connect_time := 0 }
  match match_session config.config_name sessions with
  | none => base
  | some s =>
    { base with
      session_path := some s.session_path,
      state := get_state_from_session s,
      connect_time := get_session_start_time timings s.session_path s.session_created }

/-- The ordering of compare_connections (tray.c): records are compared by
strcmp on config_name (names in records are never NULL; "Unknown" is
substituted while building). strcmp order is the lexicographic order on
the character sequences. -/
def conn_le (a b : ConnectionInfo) : Prop :=
  a.config_name.data ≤ b.config_name.data

instance : DecidableRel conn_le :=
  fun a b => inferInstanceAs (Decidable (a.config_name.data ≤ b.config_name.data))

instance : IsTotal ConnectionInfo conn_le :=
  ⟨fun a b => le_total a.config_name.data b.config_name.data⟩

instance : IsTrans ConnectionInfo conn_le :=
  ⟨fun _ _ _ hab hbc => le_trans hab hbc⟩

/-- merge_connections_data (tray.c lines 590-678), pure core: one record
per config, session matched by name, result sorted by config_name (the C
uses qsort with compare_connections; any comparison sort realizes it). -/
def merge_connections_data (timings : String → Option Int)
    (configs : List VpnConfig) (sessions : List VpnSession) : List ConnectionInfo :=
  List.insertionSort conn_le (configs.map (merge_connection_record timings sessions))

/-- The fetch-and-merge entry of merge_connections_data including its
error paths: a failed (or empty, hence NULL) config fetch returns NULL
(None); a failed session fetch is replaced by an empty session list and
the merge proceeds. -/
def merge_connections_data_result (timings : String → Option Int)
    (config_fetch : Except Int (List VpnConfig))
    (session_fetch : Except Int (List VpnSession)) : Option (List ConnectionInfo) :=
  match config_fetch with
  | .error _ => none
  | .ok configs =>
    if configs.isEmpty then none
    else
      let sessions := match session_fetch with
        | .error _ => []
        | .ok l => l
      some (merge_connections_data timings configs sessions)

/-- match_session is the first match of the scan predicate, in list
order. -/
theorem match_session_eq_find (config_name : Option String)
    (sessions : List VpnSession) :
    match_session config_name sessions =
      sessions.find? (fun s => session_matches_config s.config_name config_name) := by
  induction sessions with
  | nil => rfl
  | cons s rest ih =>
    by_cases h : session_matches_config s.config_name config_name = true
    · simp [match_session, List.find?, h]
    · simp only [Bool.not_eq_true] at h
      simp [match_session, List.find?, h, ih]

/-- Sample configuration "A" used in concrete reconciler checks. -/
def cfgA : VpnConfig :=
  { config_path := "/net/openvpn/v3/configuration/aaa",
    config_name := some "A", locked_down := false, persistent := false,
    server_address := none, server_hostname := none,
    server_port := 1194, protocol := none }

/-- Sample configuration "B" used in concrete reconciler checks. -/
def cfgB : VpnConfig :=
  { config_path := "/net/openvpn/v3/configuration/bbb",
    config_name := some "B", locked_down := false, persistent := false,
    server_address := none, server_hostname := none,
    server_port := 1194, protocol := none }

/-- Sample connected session whose profile name is "A". -/
def sessA : VpnSession :=
  { session_path := "/net/openvpn/v3/sessions/s1",
    config_name := some "A", device_name := some "tun0",
    remote_host := none, state := .SESSION_STATE_CONNECTED,
    status_message := some "Client connected", backend_pid := 1234,
    session_created := 1700000000 }

/-- C3: reconciliation yields exactly one record per config (a permutation
of the per-config records), sorted by display name; each per-config record
defaults to DISCONNECTED with no session and connect_time 0 and is filled
from the first session (in list order) whose profile name equals the
config display name. Concretely, configs "A","B" with one session named
"A" give two records: "A" matched and classified, "B" disconnected. -/
theorem merge_connections_data_spec (timings : String → Option Int)
    (configs : List VpnConfig) (sessions : List VpnSession) :
    (merge_connections_data timings configs sessions).Perm
        (configs.map (merge_connection_record timings sessions)) ∧
    List.Sorted conn_le (merge_connections_data timings configs sessions) ∧
    (∀ config : VpnConfig,
      merge_connection_record timings sessions config =
        match sessions.find?
            (fun s => session_matches_config s.config_name config.config_name) with
        | none =>
          { config_path := config.config_path,
            config_name := config.config_name.getD "Unknown",
            session_path := none,
            state := CONN_STATE_DISCONNECTED,
            connect_time := 0 }
        | some s =>
          { config_path := config.config_path,
            config_name := config.config_name.getD "Unknown",
            session_path := some s.session_path,
            state := get_state_from_session s,
            connect_time := get_session_start_time timings s.session_path
              s.session_created }) ∧
    merge_connections_data (fun _ => none) [cfgA, cfgB] [sessA] =
      [ { config_path := "/net/openvpn/v3/configuration/aaa",
          config_name := "A",
          session_path := some "/net/openvpn/v3/sessions/s1",
          state := CONN_STATE_CONNECTED,
          connect_time := 1700000000 },
        { config_path := "/net/openvpn/v3/configuration/bbb",
          config_name := "B",
          session_path := none,
          state := CONN_STATE_DISCONNECTED,
          connect_time := 0 } ] := by
  refine ⟨List.perm_insertionSort conn_le _, List.sorted_insertionSort conn_le _,
    ?_, ?_⟩
  · intro config
    rw [merge_connection_record, ← match_session_eq_find]
  · decide

/-- C4 counterexample: with two configs and a failed session fetch,
merge_connections_data does NOT abort; it produces a fresh record list in
which every connection appears DISCONNECTED — exactly what the claim says
must not happen. -/
theorem merge_session_fetch_error_counterexample :
    merge_connections_data_result (fun _ => none)
        (Except.ok [cfgA, cfgB]) (Except.error (-53)) =
      some
        [ { config_path := "/net/openvpn/v3/configuration/aaa",
            config_name := "A", session_path := none,
            state := CONN_STATE_DISCONNECTED, connect_time := 0 },
          { config_path := "/net/openvpn/v3/configuration/bbb",
            config_name := "B", session_path := none,
            state := CONN_STATE_DISCONNECTED, connect_time := 0 } ] ∧
    merge_connections_data_result (fun _ => none)
        (Except.ok [cfgA, cfgB]) (Except.error (-53)) ≠ none := by
  constructor
  · decide
  · decide

/-- C4 amended: a failed config fetch aborts the merge (returns NULL), but
a failed session fetch does not abort — the merge proceeds with an empty
session list, so every config record comes out DISCONNECTED with no
session and connect_time 0. -/
theorem merge_connections_data_error_paths (timings : String → Option Int)
    (configs : List VpnConfig) (session_fetch : Except Int (List VpnSession))
    (e : Int) :
    merge_connections_data_result timings (Except.error e) session_fetch = none ∧
    merge_connections_data_result timings (Except.ok configs) (Except.error e) =
      (if configs.isEmpty then none
       else some (merge_connections_data timings configs [])) ∧
    (merge_connections_data timings configs []).all
        (fun r => r.state == CONN_STATE_DISCONNECTED
          && r.session_path == none && r.connect_time == 0) = true := by
  refine ⟨rfl, rfl, ?_⟩
  rw [List.all_eq_true]
  intro r hr
  rw [merge_connections_data, List.mem_insertionSort] at hr
  obtain ⟨c, _, rfl⟩ := List.mem_map.mp hr
  simp [merge_connection_record, match_session]

/-! ## Fetch retry policies (config_list, src/dbus/config_client.c;
session_list, src/dbus/session_client.c) -/

/-- The retry condition of config_list: r == -ENODATA (Linux: -61) or
r == -53, i.e. the backend service is not yet activated. -/
def fetch_transient_error (r : Int) : Bool :=
  r == -61 || r == -53

/-- The retry loop of config_list (config_client.c lines 358-394).
call i is the outcome of the i-th bus call (i is the C retry counter);
retries_left counts the iterations still allowed after the current one
(the loop runs retry = 0..5, so it starts at 5). Returns
(result, attempts made, sleeps taken). On the last iteration the call
outcome is returned as is; earlier iterations sleep 1 second and retry
only on a transient error, and abort immediately on any other error. -/
def config_list_fetch_retry {α : Type} (call : Nat → Except Int α) :
    Nat → Nat → Except Int α × Nat × Nat
  | 0, idx => (call idx, 1, 0)
  | retries_left + 1, idx =>
    match call idx with
    | .ok v => (.ok v, 1, 0)
    | .error r =>
      if fetch_transient_error r then
        let rest := config_list_fetch_retry call retries_left (idx + 1)
        (rest.1, rest.2.1 + 1, rest.2.2 + 1)
      else (.error r, 1, 0)

/-- The FetchAvailableConfigs part of config_list: up to 6 attempts. -/
def config_list_fetch {α : Type} (call : Nat → Except Int α) :
    Except Int α × Nat × Nat :=
  config_list_fetch_retry call 5 0

/-- The FetchAvailableSessions part of session_list (session_client.c
lines 409-427): a single call, any failure propagates at once — there is
no retry loop in session_list. -/
def session_list_fetch {α : Type} (call : Nat → Except Int α) :
    Except Int α × Nat × Nat :=
  (call 0, 1, 0)

/-- Six consecutive transient failures leave the loop returning the 6th
outcome after 6 attempts and 5 sleeps. -/
theorem config_list_fetch_retry_all_transient {α : Type}
    (call : Nat → Except Int α) :
    ∀ n idx,
      (∀ i, i ≤ n → ∃ r, call (idx + i) = .error r ∧ fetch_transient_error r = true) →
      config_list_fetch_retry call n idx = (call (idx + n), n + 1, n) := by
  intro n
  induction n with
  | zero =>
    intro idx h
    simp [config_list_fetch_retry]
  | succ k ih =>
    intro idx h
    obtain ⟨r, hr, htr⟩ := h 0 (Nat.zero_le _)
    have hrest := ih (idx + 1) (fun i hi => by
      have := h (i + 1) (Nat.succ_le_succ hi)
      simpa [Nat.add_assoc, Nat.add_comm 1 i] using this)
    simp only [Nat.add_zero] at hr
    simp [config_list_fetch_retry, hr, htr, hrest, Nat.add_assoc, Nat.add_comm 1 k]

/-- C5 counterexample: session_list does not retry. Simulating a
persistent transient (service-not-activated) failure, session_list makes
exactly 1 attempt — not 6 — and surfaces the failure immediately. -/
theorem session_list_retry_counterexample :
    (session_list_fetch (fun _ => (Except.error (-61) : Except Int Unit))).2.1 = 1 ∧
    (session_list_fetch (fun _ => (Except.error (-61) : Except Int Unit))).1 =
      Except.error (-61) ∧
    (1 : Nat) ≠ 6 :=
  ⟨rfl, rfl, by decide⟩

/-- C5 amended: config_list retries up to 6 attempts with a 1-second sleep
between attempts on transient (service-not-activated) errors, surfacing
the failure after the 6th attempt; a non-transient error or a success ends
the loop on the spot. session_list performs a single attempt and
propagates any failure immediately, with no retry. -/
theorem fetch_retry_policy {α : Type} :
    (∀ call : Nat → Except Int α,
      (∀ i, i < 6 → ∃ r, call i = .error r ∧ fetch_transient_error r = true) →
      (config_list_fetch call).1 = call 5 ∧
      (config_list_fetch call).2.1 = 6 ∧ (config_list_fetch call).2.2 = 5) ∧
    (∀ (call : Nat → Except Int α) (r : Int), call 0 = Except.error r →
      fetch_transient_error r = false →
      config_list_fetch call = (Except.error r, 1, 0)) ∧
    (∀ (call : Nat → Except Int α) (v : α), call 0 = Except.ok v →
      config_list_fetch call = (Except.ok v, 1, 0)) ∧
    (∀ call : Nat → Except Int α,
      session_list_fetch call = (call 0, 1, 0)) := by
  refine ⟨?_, ?_, ?_, fun _ => rfl⟩
  · intro call h
    have := config_list_fetch_retry_all_transient call 5 0
      (fun i hi => by simpa using h i (by omega))
    rw [config_list_fetch, this]
    exact ⟨by norm_num, rfl, rfl⟩
  · intro call r hr htr
    simp [config_list_fetch, config_list_fetch_retry, hr, htr]
  · intro call v hv
    simp [config_list_fetch, config_list_fetch_retry, hv]

/-- Witness for fetch_retry_policy: an always-transient backend produces 6
attempts; a non-transient error aborts after 1 attempt. -/
theorem fetch_retry_policy_witness :
    (config_list_fetch (fun _ => (Except.error (-61) : Except Int Unit))).2.1 = 6 ∧
    config_list_fetch (fun _ => (Except.error (-7) : Except Int Unit)) =
      (Except.error (-7), 1, 0) :=
  ⟨(fetch_retry_policy.1 (fun _ => (Except.error (-61) : Except Int Unit))
      (fun i _ => ⟨-61, rfl, by decide⟩)).2.1,
   fetch_retry_policy.2.1 (fun _ => (Except.error (-7) : Except Int Unit))
      (-7) rfl (by decide)⟩

/-! ## Bandwidth monitor (src/monitoring/bandwidth_monitor.c) -/

/-- BandwidthSample struct from bandwidth_monitor.h: time_t timestamp
(Int) and eight uint64 counters (Nat, wrap-around made explicit where the
C subtracts). -/
structure BandwidthSample where
  timestamp : Int
  bytes_in : Nat
  bytes_out : Nat
  packets_in : Nat
  packets_out : Nat
  errors_in : Nat
  errors_out : Nat
  dropped_in : Nat
  dropped_out : Nat
deriving DecidableEq, Repr, Inhabited, BEq

/-- A memset-zero sample. -/
def zero_sample : BandwidthSample :=
  { timestamp := 0, bytes_in := 0, bytes_out := 0, packets_in := 0,
    packets_out := 0, errors_in := 0, errors_out := 0, dropped_in := 0,
    dropped_out := 0 }

/-- BandwidthRate struct from bandwidth_monitor.h; the two double rates
are modelled as exact rationals. -/
structure BandwidthRate where
  upload_rate_bps : ℚ
  download_rate_bps : ℚ
  total_uploaded : Nat
  total_downloaded : Nat
deriving DecidableEq, Repr, Inhabited

/-- A memset-zero rate. -/
def zero_rate : BandwidthRate :=
  { upload_rate_bps := 0, download_rate_bps := 0, total_uploaded := 0,
    total_downloaded := 0 }

/-- struct BandwidthMonitor (bandwidth_monitor.c): the sample array is a
list whose length stays buffer_size. -/
structure BandwidthMonitor where
  buffer_size : Nat
  samples : List BandwidthSample
  sample_count : Nat
  write_index : Nat
  start_time : Int
  baseline : BandwidthSample
  has_baseline : Bool
deriving DecidableEq, Repr, Inhabited

/-- uint64 subtraction a - b with wrap-around modulo 2^64. -/
def sub64 (a b : Nat) : Nat :=
  (a % 2 ^ 64 + 2 ^ 64 - b % 2 ^ 64) % 2 ^ 64

/-- bandwidth_monitor_create: calloc-zeroed monitor, buffer_size 0
defaults to 60. -/
def bandwidth_monitor_create (buffer_size : Nat) : BandwidthMonitor :=
  let bs := if buffer_size = 0 then 60 else buffer_size
  { buffer_size := bs,
    samples := List.replicate bs zero_sample,
    sample_count := 0, write_index := 0, start_time := 0,
    baseline := zero_sample, has_baseline := false }

/-- add_sample (bandwidth_monitor.c lines 222-244): write at write_index,
advance it circularly, saturate sample_count at buffer_size, set
start_time from the first sample of the epoch, and set the baseline once
per epoch. -/
def add_sample (monitor : BandwidthMonitor) (sample : BandwidthSample) :
    BandwidthMonitor :=
  let samples := monitor.samples.set monitor.write_index sample
  let write_index := (monitor.write_index + 1) % monitor.buffer_size
  let sample_count :=
    if monitor.sample_count < monitor.buffer_size then monitor.sample_count + 1
    else monitor.sample_count
  let start_time :=
    if sample_count = 1 then sample.timestamp else monitor.start_time
  let baseline :=
    if monitor.has_baseline then monitor.baseline else sample
  { monitor with
    samples := samples, write_index := write_index,
    sample_count := sample_count, start_time := start_time,
    baseline := baseline, has_baseline := true }

/-- Index of the most recently written slot (shared by get_rate and
get_latest_sample). -/
def latest_sample_index (m : BandwidthMonitor) : Nat :=
  if m.write_index = 0 then m.buffer_size - 1 else m.write_index - 1

/-- bandwidth_monitor_get_rate (bandwidth_monitor.c lines 296-352):
returns (r, rate) where r = -EAGAIN (-11) with a zeroed rate when fewer
than 2 samples are stored; otherwise 0 and the rate computed from the two
most recent slots, with the time delta clamped to 1 when <= 0, and
session totals from the baseline. -/
def bandwidth_monitor_get_rate (m : BandwidthMonitor) : Int × BandwidthRate :=
  if m.sample_count < 2 then (-11, zero_rate)
  else
    let latest_idx := latest_sample_index m
    let previous_idx := if latest_idx = 0 then m.buffer_size - 1 else latest_idx - 1
    let latest := m.samples.getD latest_idx zero_sample
    let previous := m.samples.getD previous_idx zero_sample
    let time_diff0 := latest.timestamp - previous.timestamp
    let time_diff := if time_diff0 ≤ 0 then 1 else time_diff0
    (0,
     { download_rate_bps :=
         (sub64 latest.bytes_in previous.bytes_in : ℚ) / (time_diff : ℚ),
       upload_rate_bps :=
         (sub64 latest.bytes_out previous.bytes_out : ℚ) / (time_diff : ℚ),
       total_downloaded :=
         if m.has_baseline then sub64 latest.bytes_in m.baseline.bytes_in
         else latest.bytes_in,
       total_uploaded :=
         if m.has_baseline then sub64 latest.bytes_out m.baseline.bytes_out
         else latest.bytes_out })

/-- bandwidth_monitor_get_latest_sample: -EAGAIN without data when no
sample is stored. -/
def bandwidth_monitor_get_latest_sample (m : BandwidthMonitor) :
    Except Int BandwidthSample :=
  if m.sample_count = 0 then .error (-11)
  else .ok (m.samples.getD (latest_sample_index m) zero_sample)

/-- The backwards walk of bandwidth_monitor_get_samples: slot index of the
i-th newest sample. -/
def sample_walk_index (buffer_size write_index i : Nat) : Nat :=
  if i < write_index then write_index - 1 - i
  else buffer_size - (i - write_index) - 1

/-- bandwidth_monitor_get_samples (lines 383-409): newest first, bounded
by the stored count. -/
def bandwidth_monitor_get_samples (m : BandwidthMonitor) (max_samples : Nat) :
    List BandwidthSample :=
  let count := min max_samples m.sample_count
  (List.range count).map (fun i =>
    m.samples.getD (sample_walk_index m.buffer_size m.write_index i) zero_sample)

/-- bandwidth_monitor_reset (lines 414-424): zero the counters, the
baseline flag, the baseline and the sample array. -/
def bandwidth_monitor_reset (m : BandwidthMonitor) : BandwidthMonitor :=
  { m with
    sample_count := 0, write_index := 0, has_baseline := false,
    baseline := zero_sample,
    samples := List.replicate m.buffer_size zero_sample }

/-- Record a sequence of samples in order (repeated
bandwidth_monitor_update calls whose reads succeed). -/
def record_samples (m : BandwidthMonitor) (l : List BandwidthSample) :
    BandwidthMonitor :=
  l.foldl add_sample m

/-- All stored samples, newest first. -/
def newest_first (m : BandwidthMonitor) : List BandwidthSample :=
  bandwidth_monitor_get_samples m m.sample_count

/-- getD of a range-map picks the function value. -/
theorem getD_map_range {α : Type} (f : Nat → α) (k i : Nat) (d : α)
    (h : i < k) : ((List.range k).map f).getD i d = f i := by
  rw [List.getD_eq_getElem?_getD, List.getElem?_map, List.getElem?_range h]
  rfl

/-- After advancing the write index, position 0 of the backwards walk is
the slot just written. -/
theorem sample_walk_index_zero (c w : Nat) (hw : w < c) :
    sample_walk_index c ((w + 1) % c) 0 = w := by
  unfold sample_walk_index
  by_cases h : w + 1 < c
  · rw [Nat.mod_eq_of_lt h, if_pos (Nat.succ_pos w)]
    omega
  · have hc : w + 1 = c := by omega
    rw [hc, Nat.mod_self, if_neg (by omega)]
    omega

/-- After advancing the write index, position i+1 of the walk is position
i of the walk before. -/
theorem sample_walk_index_succ (c w i : Nat) (hw : w < c) (hi : i + 1 < c) :
    sample_walk_index c ((w + 1) % c) (i + 1) = sample_walk_index c w i := by
  unfold sample_walk_index
  by_cases h : w + 1 < c
  · rw [Nat.mod_eq_of_lt h]
    by_cases h2 : i + 1 < w + 1
    · rw [if_pos h2, if_pos (by omega)]
      omega
    · rw [if_neg h2, if_neg (by omega)]
      omega
  · have hc : w + 1 = c := by omega
    rw [hc, Nat.mod_self, if_neg (by omega), if_pos (by omega)]
    omega

/-- Walk positions other than the last never hit the write slot. -/
theorem sample_walk_index_ne (c w i : Nat) (hw : w < c) (hi : i + 1 < c) :
    sample_walk_index c w i ≠ w := by
  unfold sample_walk_index
  by_cases h : i < w
  · rw [if_pos h]; omega
  · rw [if_neg h]; omega

/-- newest_first as a range-map over the backwards walk. -/
theorem newest_first_eq (m : BandwidthMonitor) :
    newest_first m = (List.range m.sample_count).map (fun i =>
      m.samples.getD (sample_walk_index m.buffer_size m.write_index i)
        zero_sample) := by
  simp [newest_first, bandwidth_monitor_get_samples, Nat.min_self]

/-- Adding a sample conses it onto the newest-first view, truncated to
the buffer capacity. -/
theorem newest_first_add_sample (m : BandwidthMonitor) (s : BandwidthSample)
    (hlen : m.samples.length = m.buffer_size)
    (hw : m.write_index < m.buffer_size)
    (hcount : m.sample_count ≤ m.buffer_size) :
    newest_first (add_sample m s) =
      (s :: newest_first m).take m.buffer_size := by
  have hc : 0 < m.buffer_size := by omega
  have hsamples : (add_sample m s).samples = m.samples.set m.write_index s := rfl
  have hwidx : (add_sample m s).write_index =
      (m.write_index + 1) % m.buffer_size := rfl
  have hbuf : (add_sample m s).buffer_size = m.buffer_size := rfl
  have hcount' : (add_sample m s).sample_count =
      min (m.sample_count + 1) m.buffer_size := by
    show (if m.sample_count < m.buffer_size then m.sample_count + 1
          else m.sample_count) = _
    split <;> omega
  rw [newest_first_eq, newest_first_eq, hsamples, hwidx, hbuf, hcount']
  apply List.ext_getElem?
  intro i
  by_cases hi : i < min (m.sample_count + 1) m.buffer_size
  · rw [List.getElem?_map, List.getElem?_range hi, List.getElem?_take,
      if_pos (show i < m.buffer_size by omega), Option.map_some']
    cases i with
    | zero =>
      rw [sample_walk_index_zero _ _ hw]
      have hset : (m.samples.set m.write_index s).getD m.write_index zero_sample
          = s := by
        rw [List.getD_eq_getElem?_getD, List.getElem?_set_self (by omega)]
        rfl
      rw [hset, List.getElem?_cons_zero]
    | succ j =>
      have hj1 : j + 1 < m.buffer_size := by omega
      rw [sample_walk_index_succ _ _ _ hw hj1]
      have hne := sample_walk_index_ne m.buffer_size m.write_index j hw hj1
      have hset : (m.samples.set m.write_index s).getD
          (sample_walk_index m.buffer_size m.write_index j) zero_sample
          = m.samples.getD (sample_walk_index m.buffer_size m.write_index j)
            zero_sample := by
        rw [List.getD_eq_getElem?_getD, List.getD_eq_getElem?_getD,
          List.getElem?_set_ne (Ne.symm hne)]
      rw [hset, List.getElem?_cons_succ, List.getElem?_map,
        List.getElem?_range (by omega), Option.map_some']
  · have hlen1 :
        ((List.range (min (m.sample_count + 1) m.buffer_size)).map (fun i =>
          (m.samples.set m.write_index s).getD
            (sample_walk_index m.buffer_size
              ((m.write_index + 1) % m.buffer_size) i) zero_sample)).length ≤ i := by
      simp only [List.length_map, List.length_range]
      omega
    have hlen2 :
        ((s :: (List.range m.sample_count).map (fun i =>
          m.samples.getD (sample_walk_index m.buffer_size m.write_index i)
            zero_sample)).take m.buffer_size).length ≤ i := by
      simp only [List.length_take, List.length_cons, List.length_map,
        List.length_range]
      omega
    rw [List.getElem?_eq_none hlen1, List.getElem?_eq_none hlen2]

/-- add_sample leaves the capacity unchanged. -/
theorem add_sample_buffer_size (m : BandwidthMonitor) (s : BandwidthSample) :
    (add_sample m s).buffer_size = m.buffer_size := rfl

/-- add_sample writes at the write index. -/
theorem add_sample_samples (m : BandwidthMonitor) (s : BandwidthSample) :
    (add_sample m s).samples = m.samples.set m.write_index s := rfl

/-- add_sample advances the write index circularly. -/
theorem add_sample_write_index (m : BandwidthMonitor) (s : BandwidthSample) :
    (add_sample m s).write_index = (m.write_index + 1) % m.buffer_size := rfl

/-- add_sample saturates the stored count at the capacity. -/
theorem add_sample_sample_count (m : BandwidthMonitor) (s : BandwidthSample)
    (h : m.sample_count ≤ m.buffer_size) :
    (add_sample m s).sample_count = min (m.sample_count + 1) m.buffer_size := by
  show (if m.sample_count < m.buffer_size then m.sample_count + 1
        else m.sample_count) = _
  split <;> omega

/-- add_sample keeps the existing baseline, or installs the new sample as
baseline when none is set. -/
theorem add_sample_baseline (m : BandwidthMonitor) (s : BandwidthSample) :
    (add_sample m s).baseline =
      (if m.has_baseline then m.baseline else s) := rfl

/-- headI of an append with a non-empty prefix. -/
theorem headI_append_of_ne_nil {α : Type} [Inhabited α] (l t : List α)
    (h : l ≠ []) : (l ++ t).headI = l.headI := by
  cases l with
  | nil => exact absurd rfl h
  | cons a r => rfl

/-- Invariants of a monitor freshly created with capacity c after
recording an arbitrary sample sequence: capacity and array length fixed,
write index in range, count saturating at c, the newest-first view being
the last c samples in reverse order, and the baseline being the very
first sample of the sequence. -/
theorem record_samples_invariants (c : Nat) (hc : 0 < c)
    (seq : List BandwidthSample) :
    (record_samples (bandwidth_monitor_create c) seq).buffer_size = c ∧
    (record_samples (bandwidth_monitor_create c) seq).samples.length = c ∧
    (record_samples (bandwidth_monitor_create c) seq).write_index < c ∧
    (record_samples (bandwidth_monitor_create c) seq).sample_count
      = min seq.length c ∧
    newest_first (record_samples (bandwidth_monitor_create c) seq)
      = seq.reverse.take c ∧
    (seq ≠ [] →
      (record_samples (bandwidth_monitor_create c) seq).has_baseline = true ∧
      (record_samples (bandwidth_monitor_create c) seq).baseline = seq.headI) ∧
    (seq = [] →
      (record_samples (bandwidth_monitor_create c) seq).has_baseline = false) := by
  have hn : ¬ c = 0 := by omega
  induction seq using List.reverseRecOn with
  | nil =>
    refine ⟨?_, ?_, ?_, ?_, ?_, ?_, ?_⟩ <;>
      simp [record_samples, bandwidth_monitor_create, newest_first_eq, hn]
    omega
  | append_singleton l x ih =>
    obtain ⟨ih1, ih2, ih3, ih4, ih5, ih6, ih7⟩ := ih
    have hfold : record_samples (bandwidth_monitor_create c) (l ++ [x])
        = add_sample (record_samples (bandwidth_monitor_create c) l) x := by
      simp [record_samples, List.foldl_append]
    have hlen1 : (record_samples (bandwidth_monitor_create c) l).samples.length
        = (record_samples (bandwidth_monitor_create c) l).buffer_size := by
      rw [ih1]; exact ih2
    have hw1 : (record_samples (bandwidth_monitor_create c) l).write_index
        < (record_samples (bandwidth_monitor_create c) l).buffer_size := by
      rw [ih1]; exact ih3
    have hcount1 : (record_samples (bandwidth_monitor_create c) l).sample_count
        ≤ (record_samples (bandwidth_monitor_create c) l).buffer_size := by
      rw [ih1, ih4]; omega
    refine ⟨?_, ?_, ?_, ?_, ?_, ?_, ?_⟩
    · rw [hfold, add_sample_buffer_size]; exact ih1
    · rw [hfold, add_sample_samples, List.length_set]; exact ih2
    · rw [hfold, add_sample_write_index, ih1]
      exact Nat.mod_lt _ hc
    · rw [hfold, add_sample_sample_count _ _ (by rw [ih1, ih4]; omega), ih1, ih4]
      simp only [List.length_append, List.length_cons, List.length_nil]
      omega
    · rw [hfold, newest_first_add_sample _ _ hlen1 hw1 hcount1, ih5, ih1,
        List.reverse_append]
      simp only [List.reverse_cons, List.reverse_nil, List.nil_append,
        List.singleton_append]
      obtain ⟨k, rfl⟩ : ∃ k, c = k + 1 := ⟨c - 1, by omega⟩
      rw [List.take_succ_cons, List.take_succ_cons, List.take_take,
        Nat.min_eq_left (by omega)]
    · intro _
      rw [hfold]
      refine ⟨rfl, ?_⟩
      rw [add_sample_baseline]
      rcases eq_or_ne l [] with rfl | hl
      · simp [ih7 rfl]
      · obtain ⟨hb, hbase⟩ := ih6 hl
        simp [hb, hbase, headI_append_of_ne_nil _ _ hl]
    · intro h
      exact absurd h (by simp)

/-- The latest-slot index used by get_rate and get_latest_sample is
position 0 of the backwards walk. -/
theorem latest_sample_index_eq_walk_zero (m : BandwidthMonitor)
    (hw : m.write_index < m.buffer_size) :
    latest_sample_index m
      = sample_walk_index m.buffer_size m.write_index 0 := by
  unfold latest_sample_index sample_walk_index
  by_cases h : m.write_index = 0
  · rw [if_pos h, if_neg (by omega)]
    omega
  · rw [if_neg h, if_pos (by omega)]
    omega

/-- C6: after recording n > c samples into a fresh monitor of capacity c,
exactly the last c samples are retained (newest-first retrieval), the
baseline is still the very first sample ever recorded, and (for c >= 2,
when a rate is computable at all) the session totals returned by get_rate
are latest-minus-baseline, i.e. still anchored at sample 1 even though
the window has scrolled past it. -/
theorem bandwidth_rolling_buffer_spec (c : Nat) (seq : List BandwidthSample)
    (hc : 0 < c) (hlen : c < seq.length) :
    (record_samples (bandwidth_monitor_create c) seq).sample_count = c ∧
    bandwidth_monitor_get_samples
        (record_samples (bandwidth_monitor_create c) seq) c
      = seq.reverse.take c ∧
    (record_samples (bandwidth_monitor_create c) seq).has_baseline = true ∧
    (record_samples (bandwidth_monitor_create c) seq).baseline = seq.headI ∧
    (2 ≤ c →
      (bandwidth_monitor_get_rate
          (record_samples (bandwidth_monitor_create c) seq)).1 = 0 ∧
      (bandwidth_monitor_get_rate
          (record_samples (bandwidth_monitor_create c) seq)).2.total_downloaded
        = sub64 (seq.getLastD zero_sample).bytes_in seq.headI.bytes_in ∧
      (bandwidth_monitor_get_rate
          (record_samples (bandwidth_monitor_create c) seq)).2.total_uploaded
        = sub64 (seq.getLastD zero_sample).bytes_out seq.headI.bytes_out) := by
  obtain ⟨h1, h2, h3, h4, h5, h6, h7⟩ := record_samples_invariants c hc seq
  have hne : seq ≠ [] := by
    intro h
    rw [h] at hlen
    simp at hlen
  obtain ⟨hb, hbase⟩ := h6 hne
  have hcount : (record_samples (bandwidth_monitor_create c) seq).sample_count
      = c := by
    rw [h4]
    omega
  have hsamples : bandwidth_monitor_get_samples
      (record_samples (bandwidth_monitor_create c) seq) c
      = seq.reverse.take c := by
    rw [newest_first, hcount] at h5
    exact h5
  refine ⟨hcount, hsamples, hb, hbase, ?_⟩
  intro h2c
  have hlatest : (record_samples (bandwidth_monitor_create c) seq).samples.getD
      (latest_sample_index (record_samples (bandwidth_monitor_create c) seq))
      zero_sample = seq.getLastD zero_sample := by
    rw [latest_sample_index_eq_walk_zero _ (by rw [h1]; exact h3)]
    have hnf0 : (newest_first (record_samples (bandwidth_monitor_create c) seq)).getD
        0 zero_sample
        = (record_samples (bandwidth_monitor_create c) seq).samples.getD
          (sample_walk_index
            (record_samples (bandwidth_monitor_create c) seq).buffer_size
            (record_samples (bandwidth_monitor_create c) seq).write_index 0)
          zero_sample := by
      rw [newest_first_eq]
      exact getD_map_range _ _ _ _ (by omega)
    rw [← hnf0, h5, List.getD_eq_getElem?_getD, List.getElem?_take, if_pos hc,
      ← List.head?_eq_getElem?, List.head?_reverse, List.getLastD_eq_getLast?]
  have hnot2 : ¬ (record_samples (bandwidth_monitor_create c) seq).sample_count
      < 2 := by omega
  refine ⟨?_, ?_, ?_⟩ <;>
    simp only [bandwidth_monitor_get_rate, if_neg hnot2, hlatest, hb, hbase,
      if_true, if_pos rfl]

/-- Five concrete samples (rising counters) for circular-buffer checks. -/
def seq5 : List BandwidthSample :=
  [ { zero_sample with timestamp := 10, bytes_in := 100, bytes_out := 10 },
    { zero_sample with timestamp := 12, bytes_in := 200, bytes_out := 20 },
    { zero_sample with timestamp := 14, bytes_in := 300, bytes_out := 30 },
    { zero_sample with timestamp := 16, bytes_in := 400, bytes_out := 40 },
    { zero_sample with timestamp := 18, bytes_in := 500, bytes_out := 50 } ]

/-- Witness for bandwidth_rolling_buffer_spec: capacity 3, five samples —
3 retained, baseline still sample 1, total = 500 - 100 = 400. -/
theorem bandwidth_rolling_buffer_spec_witness :
    (record_samples (bandwidth_monitor_create 3) seq5).sample_count = 3 ∧
    (record_samples (bandwidth_monitor_create 3) seq5).baseline = seq5.headI ∧
    (bandwidth_monitor_get_rate
        (record_samples (bandwidth_monitor_create 3) seq5)).2.total_downloaded
      = 400 := by
  have h := bandwidth_rolling_buffer_spec 3 seq5 (by decide) (by decide)
  refine ⟨h.1, h.2.2.2.1, ?_⟩
  rw [(h.2.2.2.2 (by decide)).2.1]
  decide

/-- C7: get_rate returns -EAGAIN with a zeroed rate whenever fewer than 2
samples are stored; with at least 2 it succeeds, computing the rate from
the two most recent slots with the time delta clamped to at least 1, so
the division is by a positive integer and the result is a well-defined
(finite) rational. -/
theorem bandwidth_monitor_get_rate_safety (m : BandwidthMonitor) :
    (m.sample_count < 2 → bandwidth_monitor_get_rate m = (-11, zero_rate)) ∧
    (2 ≤ m.sample_count →
      ∃ latest previous : BandwidthSample, ∃ d : Int,
        latest = m.samples.getD (latest_sample_index m) zero_sample ∧
        previous = m.samples.getD
          (if latest_sample_index m = 0 then m.buffer_size - 1
           else latest_sample_index m - 1) zero_sample ∧
        d = (if latest.timestamp - previous.timestamp ≤ 0 then 1
             else latest.timestamp - previous.timestamp) ∧
        1 ≤ d ∧
        bandwidth_monitor_get_rate m =
          (0,
           { download_rate_bps :=
               (sub64 latest.bytes_in previous.bytes_in : ℚ) / (d : ℚ),
             upload_rate_bps :=
               (sub64 latest.bytes_out previous.bytes_out : ℚ) / (d : ℚ),
             total_downloaded :=
               if m.has_baseline then sub64 latest.bytes_in m.baseline.bytes_in
               else latest.bytes_in,
             total_uploaded :=
               if m.has_baseline then sub64 latest.bytes_out m.baseline.bytes_out
               else latest.bytes_out })) := by
  constructor
  · intro h
    rw [bandwidth_monitor_get_rate, if_pos h]
  · intro h
    refine ⟨_, _, _, rfl, rfl, rfl, ?_, ?_⟩
    · split <;> omega
    · rw [bandwidth_monitor_get_rate, if_neg (by omega)]

/-- Two concrete samples sharing one timestamp. -/
def two_same_time : List BandwidthSample :=
  [ { zero_sample with timestamp := 100, bytes_in := 100, bytes_out := 10 },
    { zero_sample with timestamp := 100, bytes_in := 300, bytes_out := 30 } ]

/-- Witness for bandwidth_monitor_get_rate_safety: a fresh monitor has no
rate; two samples with an identical timestamp still yield a successful,
division-error-free result. -/
theorem bandwidth_monitor_get_rate_safety_witness :
    bandwidth_monitor_get_rate (bandwidth_monitor_create 3) = (-11, zero_rate) ∧
    (bandwidth_monitor_get_rate
        (record_samples (bandwidth_monitor_create 3) two_same_time)).1 = 0 := by
  constructor
  · exact (bandwidth_monitor_get_rate_safety (bandwidth_monitor_create 3)).1
      (by decide)
  · obtain ⟨lat, prev, d, h1, h2, h3, h4, h5⟩ :=
      (bandwidth_monitor_get_rate_safety
        (record_samples (bandwidth_monitor_create 3) two_same_time)).2 (by decide)
    rw [h5]

/-- C10: bandwidth_monitor_reset zeroes the stored count and clears the
baseline flag, so get_rate and get_latest_sample report not-enough-data
immediately after a reset, and the next sample recorded becomes the new
baseline and the new start time: the baseline-set-once guarantee holds
only within one reset epoch. -/
theorem bandwidth_monitor_reset_spec (m : BandwidthMonitor)
    (s : BandwidthSample) (hc : 0 < m.buffer_size) :
    (bandwidth_monitor_reset m).sample_count = 0 ∧
    (bandwidth_monitor_reset m).has_baseline = false ∧
    bandwidth_monitor_get_rate (bandwidth_monitor_reset m) = (-11, zero_rate) ∧
    bandwidth_monitor_get_latest_sample (bandwidth_monitor_reset m)
      = Except.error (-11) ∧
    (add_sample (bandwidth_monitor_reset m) s).baseline = s ∧
    (add_sample (bandwidth_monitor_reset m) s).has_baseline = true ∧
    (add_sample (bandwidth_monitor_reset m) s).sample_count = 1 ∧
    (add_sample (bandwidth_monitor_reset m) s).start_time = s.timestamp := by
  refine ⟨rfl, rfl, ?_, ?_, rfl, rfl, ?_, ?_⟩
  · have h0 : (bandwidth_monitor_reset m).sample_count < 2 := by
      show (0 : Nat) < 2
      omega
    rw [bandwidth_monitor_get_rate, if_pos h0]
  · have h1 : (bandwidth_monitor_reset m).sample_count = 0 := rfl
    rw [bandwidth_monitor_get_latest_sample, if_pos h1]
  · simp [add_sample, bandwidth_monitor_reset, hc]
  · simp [add_sample, bandwidth_monitor_reset, hc]

/-- A concrete sample used for the reset witness. -/
def sampleW : BandwidthSample :=
  { zero_sample with timestamp := 42, bytes_in := 7, bytes_out := 3 }

/-- Witness for bandwidth_monitor_reset_spec: reset a populated capacity-3
monitor, then record one sample; it becomes the new baseline. -/
theorem bandwidth_monitor_reset_spec_witness :
    (bandwidth_monitor_reset
        (record_samples (bandwidth_monitor_create 3) seq5)).sample_count = 0 ∧
    (add_sample
        (bandwidth_monitor_reset
          (record_samples (bandwidth_monitor_create 3) seq5)) sampleW).baseline
      = sampleW ∧
    (add_sample
        (bandwidth_monitor_reset
          (record_samples (bandwidth_monitor_create 3) seq5))
        sampleW).start_time = sampleW.timestamp := by
  have h := bandwidth_monitor_reset_spec
    (record_samples (bandwidth_monitor_create 3) seq5) sampleW (by decide)
  exact ⟨h.1, h.2.2.2.2.1, h.2.2.2.2.2.2.2⟩

/-! ## Authentication probe (session_get_auth_url,
src/dbus/session_client.c lines 563-721) -/

/-- The three bus calls the probe can issue, in order. -/
inductive AuthCall where
  | UserInputQueueGetTypeGroup
  | UserInputQueueCheck
  | UserInputQueueFetch
deriving DecidableEq, Repr

/-- Reply of UserInputQueueFetch, read as "uuusssb". -/
structure UserInputRequest where
  rtype : Nat
  rgroup : Nat
  rid : Nat
  rname : String
  description : String
  hidden_input : String
  masked_input : Bool
deriving DecidableEq, Repr, Inhabited

/-- The check strstr(description, "http") == description: the description
begins with the four characters h t t p. -/
def starts_with_http (s : String) : Bool :=
  List.isPrefixOf "http".data s.data

/-- The remote session backend as seen by the probe: the outcome of each
of the three queue calls. -/
structure AuthBackend where
  type_group_queue : Except Int (List (Nat × Nat))
  queue_check : Nat → Nat → Except Int (List Nat)
  queue_fetch : Nat → Nat → Nat → Except Int UserInputRequest

/-- session_get_auth_url: enumerate the pending (type, group) pairs and
pick the first with type 1 (web authentication); list the request ids for
it and take the first; fetch that request; succeed only when its
description begins with the http prefix. Every other outcome is a
negative result with no URL: -ENOENT (-2) on an empty/authless queue or
empty id list, -ENODATA (-61) on a non-URL description, or the propagated
call error. Returns the result and the list of calls issued. -/
def session_get_auth_url (b : AuthBackend) :
    Except Int String × List AuthCall :=
  match b.type_group_queue with
  | .error r => (.error r, [.UserInputQueueGetTypeGroup])
  | .ok entries =>
    match entries.find? (fun tg => tg.1 == 1) with
    | none => (.error (-2), [.UserInputQueueGetTypeGroup])
    | some tg =>
      match b.queue_check tg.1 tg.2 with
      | .error r =>
        (.error r, [.UserInputQueueGetTypeGroup, .UserInputQueueCheck])
      | .ok ids =>
        match ids with
        | [] => (.error (-2), [.UserInputQueueGetTypeGroup, .UserInputQueueCheck])
        | req_id :: _ =>
          match b.queue_fetch tg.1 tg.2 req_id with
          | .error r =>
            (.error r,
             [.UserInputQueueGetTypeGroup, .UserInputQueueCheck,
              .UserInputQueueFetch])
          | .ok req =>
            if starts_with_http req.description then
              (.ok req.description,
               [.UserInputQueueGetTypeGroup, .UserInputQueueCheck,
                .UserInputQueueFetch])
            else
              (.error (-61),
               [.UserInputQueueGetTypeGroup, .UserInputQueueCheck,
                .UserInputQueueFetch])

/-- C8: the probe succeeds only with a description that begins with the
http prefix; an empty type/group queue yields no-authentication-pending
after the first call alone, without issuing the queue-check or fetch
calls; and a fetched non-URL description yields no-authentication-pending
(-ENODATA) as well. -/
theorem session_get_auth_url_spec :
    (∀ (b : AuthBackend) (url : String) (calls : List AuthCall),
      session_get_auth_url b = (.ok url, calls) →
      starts_with_http url = true) ∧
    (∀ b : AuthBackend, b.type_group_queue = .ok [] →
      session_get_auth_url b = (.error (-2), [.UserInputQueueGetTypeGroup])) ∧
    (∀ (b : AuthBackend) (tg : Nat × Nat) (entries : List (Nat × Nat))
        (req_id : Nat) (rest : List Nat) (req : UserInputRequest),
      b.type_group_queue = .ok entries →
      entries.find? (fun tg => tg.1 == 1) = some tg →
      b.queue_check tg.1 tg.2 = .ok (req_id :: rest) →
      b.queue_fetch tg.1 tg.2 req_id = .ok req →
      starts_with_http req.description = false →
      (session_get_auth_url b).1 = .error (-61)) := by
  refine ⟨?_, ?_, ?_⟩
  · intro b url calls h
    unfold session_get_auth_url at h
    repeat' split at h
    all_goals simp_all
  · intro b hq
    unfold session_get_auth_url
    rw [hq]
    rfl
  · intro b tg entries req_id rest req hq hf hchk hfetch hurl
    simp [session_get_auth_url, hq, hf, hchk, hfetch, hurl]

/-- A backend with an empty input queue, for the witness. -/
def empty_queue_backend : AuthBackend :=
  { type_group_queue := .ok [],
    queue_check := fun _ _ => .ok [],
    queue_fetch := fun _ _ _ => .ok default }

/-- A backend whose fetched description is not a URL, for the witness. -/
def non_url_backend : AuthBackend :=
  { type_group_queue := .ok [(1, 0)],
    queue_check := fun _ _ => .ok [7],
    queue_fetch := fun _ _ _ =>
      .ok { rtype := 1, rgroup := 0, rid := 7, rname := "auth",
            description := "Please authenticate", hidden_input := "",
            masked_input := false } }

/-- Witness for session_get_auth_url_spec: the empty queue stops after one
call with -ENOENT, and a non-URL description gives -ENODATA. -/
theorem session_get_auth_url_spec_witness :
    session_get_auth_url empty_queue_backend
      = (.error (-2), [.UserInputQueueGetTypeGroup]) ∧
    (session_get_auth_url non_url_backend).1 = .error (-61) :=
  ⟨session_get_auth_url_spec.2.1 empty_queue_backend rfl,
   session_get_auth_url_spec.2.2 non_url_backend (1, 0) [(1, 0)] 7 [] _
     rfl rfl rfl rfl (by decide)⟩

/-! ## Session start ordering (disconnect_existing_sessions and
session_start, src/dbus/session_client.c lines 727-842) -/

/-- The observable bus calls issued while starting a session. -/
inductive SessionCall where
  | Disconnect (session_path : String)
  | NewTunnel
  | Connect (session_path : String)
  | SubscribeAttentionRequired (session_path : String)
deriving DecidableEq, Repr

/-- The backend as seen by session_start: the config record resolved from
the config path (None models a NULL or nameless lookup handled alike),
the session list, and the outcomes of NewTunnel, Connect and the signal
subscription. -/
structure StartBackend where
  config_info : Option VpnConfig
  sessions : Except Int (List VpnSession)
  new_tunnel : Except Int String
  connect_result : Except Int Unit
  subscribe_result : Except Int Unit

/-- disconnect_existing_sessions (lines 727-760): look up the config
name; on any lookup or listing failure do nothing; otherwise issue a
Disconnect for every session whose config_name matches (failures of the
individual disconnects are ignored). Returns the calls issued. -/
def disconnect_existing_sessions (b : StartBackend) : List SessionCall :=
  match b.config_info with
  | none => []
  | some config =>
    match config.config_name with
    | none => []
    | some cname =>
      match b.sessions with
      | .error _ => []
      | .ok sessions =>
        (sessions.filter (fun s => s.config_name == some cname)).map
          (fun s => SessionCall.Disconnect s.session_path)

/-- session_start (lines 765-842): first disconnect existing sessions of
the same config, then NewTunnel; on success Connect the new session; on
success subscribe to AttentionRequired (a subscription failure only
warns). Returns the result and the ordered call trace. -/
def session_start (b : StartBackend) : Except Int String × List SessionCall :=
  let pre := disconnect_existing_sessions b
  match b.new_tunnel with
  | .error r => (.error r, pre ++ [.NewTunnel])
  | .ok path =>
    match b.connect_result with
    | .error r => (.error r, pre ++ [.NewTunnel, .Connect path])
    | .ok _ =>
      (.ok path,
       pre ++ [.NewTunnel, .Connect path, .SubscribeAttentionRequired path])

/-- Every call issued by disconnect_existing_sessions is a Disconnect. -/
theorem disconnect_existing_sessions_only (b : StartBackend) :
    ∀ x ∈ disconnect_existing_sessions b,
      ∃ p, x = SessionCall.Disconnect p := by
  intro x hx
  unfold disconnect_existing_sessions at hx
  repeat' split at hx
  · exact absurd hx (by simp)
  · exact absurd hx (by simp)
  · exact absurd hx (by simp)
  · obtain ⟨s, _, rfl⟩ := List.mem_map.mp hx
    exact ⟨s.session_path, rfl⟩

/-- C9: in every call trace of session_start, every Disconnect precedes
the NewTunnel call, NewTunnel precedes the Connect call, and every listed
session whose profile name matches the target configuration does get a
Disconnect in the trace (so the disconnects guaranteeing at most one live
session per configuration all happen before the new session exists). -/
theorem session_start_ordering (b : StartBackend) :
    (∀ (i j : Nat) (p : String),
      (session_start b).2[i]? = some (SessionCall.Disconnect p) →
      (session_start b).2[j]? = some SessionCall.NewTunnel → i < j) ∧
    (∀ (j k : Nat) (p : String),
      (session_start b).2[j]? = some SessionCall.NewTunnel →
      (session_start b).2[k]? = some (SessionCall.Connect p) → j < k) ∧
    (∀ (config : VpnConfig) (cname : String) (l : List VpnSession),
      b.config_info = some config → config.config_name = some cname →
      b.sessions = .ok l →
      ∀ s ∈ l, s.config_name = some cname →
        SessionCall.Disconnect s.session_path ∈ (session_start b).2) := by
  obtain ⟨ci, ss, nt, cr, sr⟩ := b
  have hpre := disconnect_existing_sessions_only ⟨ci, ss, nt, cr, sr⟩
  have htr : ∃ suf : List SessionCall,
      (session_start ⟨ci, ss, nt, cr, sr⟩).2
        = disconnect_existing_sessions ⟨ci, ss, nt, cr, sr⟩ ++ suf ∧
      (∀ (m : Nat) (p : String),
        suf[m]? = some (SessionCall.Disconnect p) → False) ∧
      (∀ m : Nat, suf[m]? = some SessionCall.NewTunnel → m = 0) ∧
      (∀ (m : Nat) (p : String),
        suf[m]? = some (SessionCall.Connect p) → m = 1) := by
    rcases nt with r | path
    · refine ⟨[.NewTunnel], rfl, ?_, ?_, ?_⟩
      · intro m p h
        rcases m with _ | m <;> simp at h
      · intro m h
        rcases m with _ | m
        · rfl
        · simp at h
      · intro m p h
        rcases m with _ | m <;> simp at h
    · rcases cr with r | u
      · refine ⟨[.NewTunnel, .Connect path], rfl, ?_, ?_, ?_⟩
        · intro m p h
          rcases m with _ | _ | m <;> simp at h
        · intro m h
          rcases m with _ | _ | m
          · rfl
          · simp at h
          · simp at h
        · intro m p h
          rcases m with _ | _ | m
          · simp at h
          · rfl
          · simp at h
      · refine ⟨[.NewTunnel, .Connect path, .SubscribeAttentionRequired path],
          rfl, ?_, ?_, ?_⟩
        · intro m p h
          rcases m with _ | _ | _ | m <;> simp at h
        · intro m h
          rcases m with _ | _ | _ | m
          · rfl
          · simp at h
          · simp at h
          · simp at h
        · intro m p h
          rcases m with _ | _ | _ | m
          · simp at h
          · rfl
          · simp at h
          · simp at h
  obtain ⟨suf, hsuf, hnoDisc, hNT, hConn⟩ := htr
  refine ⟨?_, ?_, ?_⟩
  · intro i j p hi hj
    rw [hsuf] at hi hj
    by_cases hjl : j < (disconnect_existing_sessions ⟨ci, ss, nt, cr, sr⟩).length
    · rw [List.getElem?_append, if_pos hjl] at hj
      obtain ⟨p2, hp2⟩ := hpre _ (List.getElem?_mem hj)
      simp at hp2
    · rw [List.getElem?_append_right (by omega)] at hj
      have hj0 := hNT _ hj
      by_cases hil : i < (disconnect_existing_sessions ⟨ci, ss, nt, cr, sr⟩).length
      · omega
      · rw [List.getElem?_append_right (by omega)] at hi
        exact absurd hi (fun hh => hnoDisc _ _ hh)
  · intro j k p hj hk
    rw [hsuf] at hj hk
    by_cases hjl : j < (disconnect_existing_sessions ⟨ci, ss, nt, cr, sr⟩).length
    · rw [List.getElem?_append, if_pos hjl] at hj
      obtain ⟨p2, hp2⟩ := hpre _ (List.getElem?_mem hj)
      simp at hp2
    · rw [List.getElem?_append_right (by omega)] at hj
      have hj0 := hNT _ hj
      by_cases hkl : k < (disconnect_existing_sessions ⟨ci, ss, nt, cr, sr⟩).length
      · rw [List.getElem?_append, if_pos hkl] at hk
        obtain ⟨p2, hp2⟩ := hpre _ (List.getElem?_mem hk)
        simp at hp2
      · rw [List.getElem?_append_right (by omega)] at hk
        have hk1 := hConn _ _ hk
        omega
  · intro config cname l hcfg hname hsess s hs hsname
    rw [hsuf]
    apply List.mem_append_left
    have hci : ci = some config := hcfg
    have hss : ss = .ok l := hsess
    simp only [disconnect_existing_sessions, hci, hname, hss]
    exact List.mem_map.mpr
      ⟨s, List.mem_filter.mpr ⟨hs, by simp [hsname]⟩, rfl⟩

/-- A session of an unrelated profile "C", for the witness backend. -/
def sessC : VpnSession :=
  { sessA with
    session_path := "/net/openvpn/v3/sessions/s2",
    config_name := some "C" }

/-- A backend with one pre-existing matching session, one non-matching
session, and a successful start, for the witness. -/
def start_backend_example : StartBackend :=
  { config_info := some cfgA,
    sessions := .ok [sessA, sessC],
    new_tunnel := .ok "/net/openvpn/v3/sessions/s9",
    connect_result := .ok (),
    subscribe_result := .ok () }

/-- Witness for session_start_ordering: on the example backend the trace
is Disconnect s1, NewTunnel, Connect s9, Subscribe s9; the Disconnect (at
0) precedes NewTunnel (at 1), which precedes Connect (at 2), and the
matching session got its Disconnect. -/
theorem session_start_ordering_witness :
    (0 : Nat) < 1 ∧ (1 : Nat) < 2 ∧
    SessionCall.Disconnect "/net/openvpn/v3/sessions/s1"
      ∈ (session_start start_backend_example).2 :=
  ⟨(session_start_ordering start_backend_example).1 0 1
      "/net/openvpn/v3/sessions/s1" (by decide) (by decide),
   (session_start_ordering start_backend_example).2.1 1 2
      "/net/openvpn/v3/sessions/s9" (by decide) (by decide),
   (session_start_ordering start_backend_example).2.2 cfgA "A" [sessA, sessC]
      rfl rfl rfl sessA (List.mem_cons_self _ _) rfl⟩
